import Mathlib

/-!
# Verification of the perceptia Wayland-frontend session layer (`Proxy`)

Shallow embedding of `src/cognitive/wayland_frontend/src/proxy.rs` from the
perceptia compositor.  The `Proxy` structure holds the per-client session
state; its Facade methods (requests from the client) and Gateway methods
(callbacks from the compositor core) are translated as pure functions from a
state to a new state together with a trace of emitted effects (coordinator
calls, mediator calls, outbound wire messages, log reports).

External collaborators (the domain `Coordinator` and the process-wide
`Mediator`) are modelled by passing their synchronous results in as
parameters and by recording the calls made to them in the effect trace.
Machine integers: object ids, surface ids and similar handles are modelled
as `Nat`; the wire null object id is `0`; `last_global_id` is a `u32` and is
incremented modulo `2^32`.  The `f64` continuous axis deltas are modelled as
`Int` (negation and the zero test are the only operations the code performs
on them).  Wire serials and the raw byte contents of memory buffers are not
observable in any property below and are omitted from the traces.
-/

namespace Perceptia

/-- A client-scoped protocol object id (`wl::ObjectId`).  The distinguished
null object is id `0`. -/
abbrev ObjectId := Nat

/-- Modelled from the spec: `SurfaceId` is a domain-scoped identifier with a
distinguished invalid value (the qualia definition file is not part of the
excerpt; only `SurfaceId::invalid()` and equality are used here). -/
abbrev SurfaceId := Nat

/-- Modelled from the spec: the distinguished invalid `SurfaceId`. -/
def invalidSid : SurfaceId := 0

/-- Reclaimed memory-pool contents (`qualia::Memory`), abstract token. -/
abbrev Memory := Nat

/-- Shell surface object ids (`facade::ShellSurfaceOid`): either the legacy
`wl_shell` surface object, or the pair of `zxdg_surface_v6` and
`zxdg_toplevel_v6` objects.  (Reconstructed from its uses in `proxy.rs`;
`facade.rs` itself is outside the excerpt.) -/
inductive ShellSurfaceOid where
  | Shell (oid : ObjectId)
  | ZxdgToplevelV6 (surface_oid : ObjectId) (toplevel_oid : ObjectId)
  deriving DecidableEq, Repr

/-- `SurfaceInfo`: client-side object ids related to one domain surface. -/
structure SurfaceInfo where
  surface_oid : Option ObjectId
  buffer_oid : Option ObjectId
  frame_oid : Option ObjectId
  shell_surface_oid : Option ShellSurfaceOid
  deriving DecidableEq, Repr

/-- `SurfaceInfo::new()`. -/
def SurfaceInfo.new : SurfaceInfo :=
  { surface_oid := none, shell_surface_oid := none, buffer_oid := none, frame_oid := none }

/-- `BufferInfo`: how a client buffer object can be attached in the domain. -/
inductive BufferInfo where
  | Shm (mpid : Nat) (mvid : Nat)
  | EglImage (eiid : Nat)
  | Dmabuf (dbid : Nat)
  deriving DecidableEq, Repr

/-- Modelled from the spec: a `Global` is a named advertised capability
(`global.rs` is outside the excerpt; `register_global` overwrites `name`). -/
structure Global where
  name : Nat
  capability : Nat
  deriving DecidableEq, Repr

/-- Tags distinguishing the individual diagnostic log reports of `proxy.rs`. -/
def warnCouldNotSetBuffer : Nat := 0
/-- Tag for the `"No matching output for screenshot"` report. -/
def warnNoMatchingOutput : Nat := 1
/-- Tag for the `"Already have ... for surface ..."` report. -/
def warnAlreadyHave : Nat := 2
/-- Tag for the `"Screenshot: ..."` absorb-error report. -/
def warnScreenshotAbsorb : Nat := 3
/-- Tag for the `"Screenshot: buffer not found"` report. -/
def warnScreenshotNoBuffer : Nat := 4
/-- Tag for the reconfiguration-without-shell report. -/
def warnReconfiguredNotInShell : Nat := 5
/-- Tag for the `"Unknown buffer object ID"` report. -/
def errUnknownBuffer : Nat := 6
/-- Tag for the `"Unknown surface object ID"` report. -/
def errUnknownSurface : Nat := 7

/-- `wl_pointer::axis::VERTICAL_SCROLL`. -/
def VERTICAL_SCROLL : Nat := 0
/-- `wl_pointer::axis::HORIZONTAL_SCROLL`. -/
def HORIZONTAL_SCROLL : Nat := 1

/-- One observable effect of a `Proxy` method: a coordinator call, a mediator
call, an outbound wire message, or a diagnostic log report. -/
inductive Ev where
  -- coordinator (domain) calls
  | unrelateSurface (sid : SurfaceId)
  | detachSurface (sid : SurfaceId)
  | attachShm (mvid : Nat) (sid : SurfaceId)
  | attachEglImage (eiid : Nat) (sid : SurfaceId)
  | attachDmabuf (dbid : Nat) (sid : SurfaceId)
  | showSurface (sid : SurfaceId) (reason : Nat)
  | setSurfaceOffset (sid : SurfaceId) (x y : Int)
  | setSurfaceAsCursor (sid : SurfaceId)
  | destroyMemoryPool (mpid : Nat)
  | coordTakeScreenshot (output_id : Int)
  | takeScreenshotBuffer
  -- mediator calls
  | registerScreenshoter (client : Option Nat)
  -- outbound wire messages
  | ptrLeave (pointer_oid surface_oid : ObjectId)
  | ptrEnter (pointer_oid surface_oid : ObjectId) (x y : Int)
  | kbdLeave (keyboard_oid surface_oid : ObjectId)
  | kbdEnter (keyboard_oid surface_oid : ObjectId)
  | shellConfigure (shell_surface_oid : ObjectId) (w h : Nat)
  | xdgToplevelConfigure (toplevel_oid : ObjectId) (w h : Nat) (states : List Nat)
  | xdgSurfaceConfigure (shell_surface_oid : ObjectId)
  | callbackDone (frame_oid : ObjectId) (ms : Nat)
  | displayDeleteId (oid : ObjectId)
  | bufferRelease (buffer_oid : ObjectId)
  | axisDiscrete (pointer_oid : ObjectId) (axis_type : Nat) (value : Int)
  | axisValue (pointer_oid : ObjectId) (time : Nat) (axis_type : Nat) (value : Int)
  | axisStop (pointer_oid : ObjectId) (time : Nat) (axis_type : Nat)
  | ptrFrame (pointer_oid : ObjectId)
  | screenshooterDone (screenshooter_oid : ObjectId)
  -- diagnostic reports
  | logWarn (tag : Nat)
  | logError (tag : Nat)
  deriving DecidableEq, Repr

/-- The session state of `Proxy` (the fields the verified operations use).
Hash maps are modelled as functions to `Option`; the `BTreeMap` of globals is
an association list kept sorted by ascending key; the `HashSet`s of bound
pointer/keyboard objects are lists recording one iteration order. -/
structure Proxy where
  client_id : Nat
  globals : List (Nat × Global)
  last_global_id : Nat
  pointer_oids : List ObjectId
  keyboard_oids : List ObjectId
  surface_oid_to_sid_dict : ObjectId → Option SurfaceId
  sid_to_surface_info_dict : SurfaceId → Option SurfaceInfo
  buffer_oid_to_info_dict : ObjectId → Option BufferInfo
  output_oid_to_id : ObjectId → Option Int
  screenshooter_oid : Option ObjectId
  screenshot_memory : Option Memory

/-- The freshly constructed session state (`Proxy::new`). -/
def Proxy.new (client_id : Nat) : Proxy :=
  { client_id := client_id
    globals := []
    last_global_id := 0
    pointer_oids := []
    keyboard_oids := []
    surface_oid_to_sid_dict := fun _ => none
    sid_to_surface_info_dict := fun _ => none
    buffer_oid_to_info_dict := fun _ => none
    output_oid_to_id := fun _ => none
    screenshooter_oid := none
    screenshot_memory := none }

/-- `u32` modulus for `last_global_id`. -/
def U32MOD : Nat := 2 ^ 32

/-- Insertion into the `BTreeMap` of globals: keeps the association list
sorted by ascending key, replacing an equal key. -/
def btreeInsert (k : Nat) (v : Global) : List (Nat × Global) → List (Nat × Global)
  | [] => [(k, v)]
  | (k', v') :: rest =>
    if k < k' then (k, v) :: (k', v') :: rest
    else if k = k' then (k, v) :: rest
    else (k', v') :: btreeInsert k v rest

/-- `Proxy::register_global`: bump `last_global_id` (a `u32`), stamp it into
the global's `name`, and insert under that name. -/
def Proxy.register_global (p : Proxy) (g : Global) : Proxy :=
  let id := (p.last_global_id + 1) % U32MOD
  { p with last_global_id := id
           globals := btreeInsert id { g with name := id } p.globals }

/-- Expansion of the `relate_sid_with!` macro for the `surface_oid` member:
set the member only if the entry exists with the member unset, warn (and keep
the old value) if it is already set, create a fresh entry otherwise. -/
def relateSurfaceOid (d : SurfaceId → Option SurfaceInfo) (sid : SurfaceId) (oid : ObjectId) :
    (SurfaceId → Option SurfaceInfo) × List Ev :=
  match d sid with
  | some info =>
    match info.surface_oid with
    | none => (fun k => if k = sid then some { info with surface_oid := some oid } else d k, [])
    | some _ => (d, [Ev.logWarn warnAlreadyHave])
  | none =>
    (fun k => if k = sid then some { SurfaceInfo.new with surface_oid := some oid } else d k, [])

/-- Expansion of `relate_sid_with!` for the `buffer_oid` member. -/
def relateBufferOid (d : SurfaceId → Option SurfaceInfo) (sid : SurfaceId) (oid : ObjectId) :
    (SurfaceId → Option SurfaceInfo) × List Ev :=
  match d sid with
  | some info =>
    match info.buffer_oid with
    | none => (fun k => if k = sid then some { info with buffer_oid := some oid } else d k, [])
    | some _ => (d, [Ev.logWarn warnAlreadyHave])
  | none =>
    (fun k => if k = sid then some { SurfaceInfo.new with buffer_oid := some oid } else d k, [])

/-- Expansion of `relate_sid_with!` for the `frame_oid` member. -/
def relateFrameOid (d : SurfaceId → Option SurfaceInfo) (sid : SurfaceId) (oid : ObjectId) :
    (SurfaceId → Option SurfaceInfo) × List Ev :=
  match d sid with
  | some info =>
    match info.frame_oid with
    | none => (fun k => if k = sid then some { info with frame_oid := some oid } else d k, [])
    | some _ => (d, [Ev.logWarn warnAlreadyHave])
  | none =>
    (fun k => if k = sid then some { SurfaceInfo.new with frame_oid := some oid } else d k, [])

/-- Expansion of `relate_sid_with!` for the `shell_surface_oid` member. -/
def relateShellSurfaceOid (d : SurfaceId → Option SurfaceInfo) (sid : SurfaceId)
    (oid : ShellSurfaceOid) : (SurfaceId → Option SurfaceInfo) × List Ev :=
  match d sid with
  | some info =>
    match info.shell_surface_oid with
    | none =>
      (fun k => if k = sid then some { info with shell_surface_oid := some oid } else d k, [])
    | some _ => (d, [Ev.logWarn warnAlreadyHave])
  | none =>
    (fun k =>
      if k = sid then some { SurfaceInfo.new with shell_surface_oid := some oid } else d k, [])

/-- `Proxy::relate_sid_with_surface`: also records the `oid → sid` mapping. -/
def Proxy.relate_sid_with_surface (p : Proxy) (sid : SurfaceId) (oid : ObjectId) :
    Proxy × List Ev :=
  let r := relateSurfaceOid p.sid_to_surface_info_dict sid oid
  ({ p with
      surface_oid_to_sid_dict :=
        fun k => if k = oid then some sid else p.surface_oid_to_sid_dict k
      sid_to_surface_info_dict := r.1 }, r.2)

/-- `Proxy::relate_sid_with_buffer`. -/
def Proxy.relate_sid_with_buffer (p : Proxy) (sid : SurfaceId) (oid : ObjectId) :
    Proxy × List Ev :=
  let r := relateBufferOid p.sid_to_surface_info_dict sid oid
  ({ p with sid_to_surface_info_dict := r.1 }, r.2)

/-- `Proxy::relate_sid_with_frame`. -/
def Proxy.relate_sid_with_frame (p : Proxy) (sid : SurfaceId) (oid : ObjectId) :
    Proxy × List Ev :=
  let r := relateFrameOid p.sid_to_surface_info_dict sid oid
  ({ p with sid_to_surface_info_dict := r.1 }, r.2)

/-- `Proxy::relate_sid_with_shell_surface`. -/
def Proxy.relate_sid_with_shell_surface (p : Proxy) (sid : SurfaceId) (oid : ShellSurfaceOid) :
    Proxy × List Ev :=
  let r := relateShellSurfaceOid p.sid_to_surface_info_dict sid oid
  ({ p with sid_to_surface_info_dict := r.1 }, r.2)

/-- `Facade::create_memory_view` for `Proxy`.  `res` is the coordinator's
reply to `create_memory_view(mpid, format, offset, width, height, stride)`;
on success the shared-memory `BufferInfo` is recorded under `buffer_oid`. -/
def Proxy.create_memory_view (p : Proxy) (res : Option Nat) (mpid : Nat) (buffer_oid : ObjectId)
    (_format _offset _width _height _stride : Nat) : Option Nat × Proxy :=
  match res with
  | some mvid =>
    (some mvid,
      { p with buffer_oid_to_info_dict :=
          fun k => if k = buffer_oid then some (BufferInfo.Shm mpid mvid)
                   else p.buffer_oid_to_info_dict k })
  | none => (none, p)

/-- `Facade::create_egl_image` for `Proxy`; `res` is the coordinator's reply
to `create_egl_image(attrs)`. -/
def Proxy.create_egl_image (p : Proxy) (res : Option Nat) (buffer_oid : ObjectId)
    (_attrs : Nat) : Option Nat × Proxy :=
  match res with
  | some eiid =>
    (some eiid,
      { p with buffer_oid_to_info_dict :=
          fun k => if k = buffer_oid then some (BufferInfo.EglImage eiid)
                   else p.buffer_oid_to_info_dict k })
  | none => (none, p)

/-- `Facade::import_dmabuf` for `Proxy`; `res` is the coordinator's reply to
`import_dmabuf(attrs)`. -/
def Proxy.import_dmabuf (p : Proxy) (res : Option Nat) (buffer_oid : ObjectId)
    (_attrs : Nat) : Option Nat × Proxy :=
  match res with
  | some dbid =>
    (some dbid,
      { p with buffer_oid_to_info_dict :=
          fun k => if k = buffer_oid then some (BufferInfo.Dmabuf dbid)
                   else p.buffer_oid_to_info_dict k })
  | none => (none, p)

/-- `Facade::attach` for `Proxy`.  A null (`0`) buffer object asks the domain
to unrelate and detach the surface; a known buffer object is related to the
surface as its pending buffer and dispatched by backend kind; an unknown one
is a reported protocol violation. -/
def Proxy.attach (p : Proxy) (buffer_oid : ObjectId) (sid : SurfaceId) (_x _y : Int) :
    Proxy × List Ev :=
  if buffer_oid = 0 then
    (p, [Ev.unrelateSurface sid, Ev.detachSurface sid])
  else
    match p.buffer_oid_to_info_dict buffer_oid with
    | some info =>
      let r := p.relate_sid_with_buffer sid buffer_oid
      match info with
      | BufferInfo.Shm _mpid mvid => (r.1, r.2 ++ [Ev.attachShm mvid sid])
      | BufferInfo.EglImage eiid => (r.1, r.2 ++ [Ev.attachEglImage eiid sid])
      | BufferInfo.Dmabuf dbid => (r.1, r.2 ++ [Ev.attachDmabuf dbid sid])
    | none => (p, [Ev.logError errUnknownBuffer])

/-- `Facade::show` for `Proxy`: bind the shell descriptor and ask the domain
to show the surface. -/
def Proxy.show (p : Proxy) (surface_oid : ObjectId) (shell_surface_oid : ShellSurfaceOid)
    (reason : Nat) : Proxy × List Ev :=
  match p.surface_oid_to_sid_dict surface_oid with
  | some sid =>
    let r := p.relate_sid_with_shell_surface sid shell_surface_oid
    (r.1, r.2 ++ [Ev.showSurface sid reason])
  | none => (p, [Ev.logError errUnknownSurface])

/-- `Facade::set_as_cursor` for `Proxy`: for a known surface object, set the
surface offset to the hotspot position and mark the surface as cursor. -/
def Proxy.set_as_cursor (p : Proxy) (surface_oid : ObjectId) (hotspot_x hotspot_y : Int) :
    List Ev :=
  match p.surface_oid_to_sid_dict surface_oid with
  | some sid => [Ev.setSurfaceOffset sid hotspot_x hotspot_y, Ev.setSurfaceAsCursor sid]
  | none => []

/-- `Facade::take_screenshot` for `Proxy`.  `destroyPoolResult mpid` is the
memory the coordinator returns when asked to destroy pool `mpid` (the
client-owned memory reclaimed as capture target). -/
def Proxy.take_screenshot (p : Proxy) (destroyPoolResult : Nat → Option Memory)
    (screenshooter_oid output_oid buffer_oid : ObjectId) : Proxy × List Ev :=
  let step :=
    match p.buffer_oid_to_info_dict buffer_oid with
    | some (BufferInfo.Shm mpid _mvid) =>
      ({ p with screenshot_memory := destroyPoolResult mpid }, [Ev.destroyMemoryPool mpid])
    | _ => (p, [])
  let p1 := step.1
  if p1.screenshot_memory.isSome then
    match p1.output_oid_to_id output_oid with
    | some output_id =>
      ({ p1 with screenshooter_oid := some screenshooter_oid },
        step.2 ++ [Ev.coordTakeScreenshot output_id,
                   Ev.registerScreenshoter (some p1.client_id)])
    | none => (p1, step.2 ++ [Ev.logWarn warnNoMatchingOutput])
  else
    (p1, step.2 ++ [Ev.logWarn warnCouldNotSetBuffer])

/-- Modelled from the spec: `surface_state` flags; only the `MAXIMIZED` flag
is consulted by the excerpted code (`qualia` flag definitions are outside the
excerpt). -/
structure SurfaceState where
  maximized : Bool
  deriving DecidableEq, Repr

/-- Result of the coordinator's `get_surface(sid)`: desired size and state
flags. -/
structure WindowInfo where
  desired_size : Nat × Nat
  state_flags : SurfaceState
  deriving DecidableEq, Repr

/-- `zxdg_toplevel_v6::state::MAXIMIZED`. -/
def XDG_STATE_MAXIMIZED : Nat := 1
/-- `zxdg_toplevel_v6::state::ACTIVATED`. -/
def XDG_STATE_ACTIVATED : Nat := 4

/-- `Gateway::on_surface_frame` for `Proxy`: send the pending frame-done
callback and release the pending buffer, if any, then clear both slots. -/
def Proxy.on_surface_frame (p : Proxy) (sid : SurfaceId) (milliseconds : Nat) :
    Proxy × List Ev :=
  match p.sid_to_surface_info_dict sid with
  | some info =>
    let evs1 :=
      match info.frame_oid with
      | some frame_oid => [Ev.callbackDone frame_oid milliseconds, Ev.displayDeleteId frame_oid]
      | none => []
    let evs2 :=
      match info.buffer_oid with
      | some buffer_oid => [Ev.bufferRelease buffer_oid]
      | none => []
    ({ p with sid_to_surface_info_dict :=
        fun k => if k = sid then some { info with frame_oid := none, buffer_oid := none }
                 else p.sid_to_surface_info_dict k },
      evs1 ++ evs2)
  | none => (p, [])

/-- `Gateway::on_pointer_focus_changed` for `Proxy`: leave events for the old
surface (if valid and known), then enter events for the new one. -/
def Proxy.on_pointer_focus_changed (p : Proxy) (old_sid new_sid : SurfaceId)
    (position : Int × Int) : List Ev :=
  (if old_sid ≠ invalidSid then
    match p.sid_to_surface_info_dict old_sid with
    | some surface_info =>
      match surface_info.surface_oid with
      | some surface_oid => p.pointer_oids.map (fun poid => Ev.ptrLeave poid surface_oid)
      | none => []
    | none => []
  else []) ++
  (if new_sid ≠ invalidSid then
    match p.sid_to_surface_info_dict new_sid with
    | some surface_info =>
      match surface_info.surface_oid with
      | some surface_oid =>
        p.pointer_oids.map (fun poid => Ev.ptrEnter poid surface_oid position.1 position.2)
      | none => []
    | none => []
  else [])

/-- `Gateway::on_surface_reconfigured` for `Proxy`.  `kfsid` is the
coordinator's reply to `get_keyboard_focused_sid()` (consulted when deriving
the `ACTIVATED` state at send time). -/
def Proxy.on_surface_reconfigured (p : Proxy) (kfsid : SurfaceId) (sid : SurfaceId)
    (size : Nat × Nat) (state_flags : SurfaceState) : List Ev :=
  match p.sid_to_surface_info_dict sid with
  | some info =>
    match info.shell_surface_oid with
    | some (ShellSurfaceOid.Shell shell_surface_oid) =>
      [Ev.shellConfigure shell_surface_oid size.1 size.2]
    | some (ShellSurfaceOid.ZxdgToplevelV6 shell_surface_oid shell_toplevel_oid) =>
      let states :=
        (if state_flags.maximized then [XDG_STATE_MAXIMIZED] else []) ++
        (if sid = kfsid then [XDG_STATE_ACTIVATED] else [])
      [Ev.xdgToplevelConfigure shell_toplevel_oid size.1 size.2 states,
       Ev.xdgSurfaceConfigure shell_surface_oid]
    | none => [Ev.logWarn warnReconfiguredNotInShell]
  | none => []

/-- `Gateway::on_keyboard_focus_changed` for `Proxy`.  `getSurface` is the
coordinator's `get_surface` and `kfsid` its `get_keyboard_focused_sid()`:
leave events (each followed by a re-derived reconfiguration) for the old
surface, then enter events (likewise) for the new one. -/
def Proxy.on_keyboard_focus_changed (p : Proxy) (getSurface : SurfaceId → Option WindowInfo)
    (kfsid : SurfaceId) (old_sid new_sid : SurfaceId) : List Ev :=
  (if old_sid ≠ invalidSid then
    match p.sid_to_surface_info_dict old_sid with
    | some surface_info =>
      match surface_info.surface_oid with
      | some surface_oid =>
        p.keyboard_oids.flatMap (fun koid =>
          Ev.kbdLeave koid surface_oid ::
          (match getSurface old_sid with
           | some window_info =>
             p.on_surface_reconfigured kfsid old_sid window_info.desired_size
               window_info.state_flags
           | none => []))
      | none => []
    | none => []
  else []) ++
  (if new_sid ≠ invalidSid then
    match p.sid_to_surface_info_dict new_sid with
    | some surface_info =>
      match surface_info.surface_oid with
      | some surface_oid =>
        p.keyboard_oids.flatMap (fun koid =>
          Ev.kbdEnter koid surface_oid ::
          (match getSurface new_sid with
           | some window_info =>
             p.on_surface_reconfigured kfsid new_sid window_info.desired_size
               window_info.state_flags
           | none => []))
      | none => []
    | none => []
  else [])

/-- Axis input event (`qualia::Axis`): discrete and continuous deltas as
`(horizontal, vertical)` pairs and a timestamp.  The `f64` continuous deltas
are modelled as `Int`. -/
structure Axis where
  discrete : Int × Int
  continuous : Int × Int
  time : Nat
  deriving DecidableEq, Repr

/-- `Gateway::on_pointer_axis` for `Proxy`: invert the vertical deltas, then
for every bound pointer emit the vertical sequence, the horizontal sequence
and a closing frame marker. -/
def Proxy.on_pointer_axis (p : Proxy) (axis0 : Axis) : List Ev :=
  let axis := { axis0 with
    discrete := (axis0.discrete.1, -1 * axis0.discrete.2)
    continuous := (axis0.continuous.1, -1 * axis0.continuous.2) }
  p.pointer_oids.flatMap (fun pointer_oid =>
    (if axis.discrete.2 ≠ 0 then
      [Ev.axisDiscrete pointer_oid VERTICAL_SCROLL axis.discrete.2] else []) ++
    (if axis.continuous.2 ≠ 0 then
      [Ev.axisValue pointer_oid axis.time VERTICAL_SCROLL axis.continuous.2]
     else [Ev.axisStop pointer_oid axis.time VERTICAL_SCROLL]) ++
    (if axis.discrete.1 ≠ 0 then
      [Ev.axisDiscrete pointer_oid HORIZONTAL_SCROLL axis.discrete.1] else []) ++
    (if axis.continuous.1 ≠ 0 then
      [Ev.axisValue pointer_oid axis.time HORIZONTAL_SCROLL axis.continuous.1]
     else [Ev.axisStop pointer_oid axis.time HORIZONTAL_SCROLL]) ++
    [Ev.ptrFrame pointer_oid])

/-- `Gateway::on_screenshot_done` for `Proxy`.  `screenshotBuf` is the
coordinator's `take_screenshot_buffer()` reply and `absorbErr` the error, if
any, of copying it into the reclaimed memory; both failure modes are logged
and swallowed, the done message goes to the recorded requester object and the
mediator's requester slot is then cleared. -/
def Proxy.on_screenshot_done (p : Proxy) (screenshotBuf : Option Nat) (absorbErr : Option Nat) :
    List Ev :=
  match p.screenshooter_oid with
  | some screenshooter_oid =>
    (match p.screenshot_memory with
     | some _mem =>
       Ev.takeScreenshotBuffer ::
       (match screenshotBuf with
        | some _s =>
          (match absorbErr with
           | some _e => [Ev.logWarn warnScreenshotAbsorb]
           | none => [])
        | none => [Ev.logWarn warnScreenshotNoBuffer])
     | none => []) ++
    [Ev.screenshooterDone screenshooter_oid, Ev.registerScreenshoter none]
  | none => []

/-- A concrete sample session state used by witnesses and counterexamples:
one known surface (object `5`, domain id `3`) with a pending buffer (object
`7`, a shared-memory view of pool `2`), a pending frame object `9` and a
legacy shell descriptor; two bound pointers, one bound keyboard, one known
output and an outstanding screenshot request from object `10`. -/
def sampleProxy : Proxy :=
  { client_id := 1
    globals := []
    last_global_id := 0
    pointer_oids := [21, 22]
    keyboard_oids := [31]
    surface_oid_to_sid_dict := fun k => if k = 5 then some 3 else none
    sid_to_surface_info_dict := fun k =>
      if k = 3 then
        some { surface_oid := some 5, buffer_oid := some 7, frame_oid := some 9,
               shell_surface_oid := some (ShellSurfaceOid.Shell 11) }
      else none
    buffer_oid_to_info_dict := fun k => if k = 7 then some (BufferInfo.Shm 2 3) else none
    output_oid_to_id := fun k => if k = 4 then some 0 else none
    screenshooter_oid := some 10
    screenshot_memory := some 0 }

/-- A sample session with a single bound pointer object `1` and nothing
else, used for the concrete axis-delivery scenario. -/
def onePointerProxy : Proxy :=
  { Proxy.new 1 with pointer_oids := [1] }

/-- Sample globals for the `register_global` witness. -/
def sampleGlobals : List Global :=
  [{ name := 0, capability := 100 }, { name := 0, capability := 200 },
   { name := 0, capability := 300 }]

/-- Recognizes the backend attach calls (`attach_shm`, `attach_egl_image`,
`attach_dmabuf`). -/
def isAttachEv : Ev → Bool
  | Ev.attachShm _ _ => true
  | Ev.attachEglImage _ _ => true
  | Ev.attachDmabuf _ _ => true
  | _ => false

/-- Recognizes the local diagnostic failure reports. -/
def isFailureEv : Ev → Bool
  | Ev.logWarn _ => true
  | Ev.logError _ => true
  | _ => false

/-- Number of local failure reports in a trace. -/
def countFailures (evs : List Ev) : Nat :=
  (evs.filter isFailureEv).length

/-- Recognizes focus-notification wire messages (pointer or keyboard leave
and enter). -/
def isFocusMsg : Ev → Bool
  | Ev.ptrLeave _ _ => true
  | Ev.ptrEnter _ _ _ _ => true
  | Ev.kbdLeave _ _ => true
  | Ev.kbdEnter _ _ => true
  | _ => false

/-- The pointer leave messages the spec expects for an old focus target: one
per bound pointer object when the target is valid and known (has a related
surface object), nothing otherwise. -/
def expectedPointerLeaves (p : Proxy) (old_sid : SurfaceId) : List Ev :=
  if old_sid ≠ invalidSid then
    match p.sid_to_surface_info_dict old_sid with
    | some surface_info =>
      match surface_info.surface_oid with
      | some surface_oid => p.pointer_oids.map (fun poid => Ev.ptrLeave poid surface_oid)
      | none => []
    | none => []
  else []

/-- The pointer enter messages the spec expects for a new focus target. -/
def expectedPointerEnters (p : Proxy) (new_sid : SurfaceId) (position : Int × Int) : List Ev :=
  if new_sid ≠ invalidSid then
    match p.sid_to_surface_info_dict new_sid with
    | some surface_info =>
      match surface_info.surface_oid with
      | some surface_oid =>
        p.pointer_oids.map (fun poid => Ev.ptrEnter poid surface_oid position.1 position.2)
      | none => []
    | none => []
  else []

/-- The keyboard leave messages the spec expects for an old focus target. -/
def expectedKeyboardLeaves (p : Proxy) (old_sid : SurfaceId) : List Ev :=
  if old_sid ≠ invalidSid then
    match p.sid_to_surface_info_dict old_sid with
    | some surface_info =>
      match surface_info.surface_oid with
      | some surface_oid => p.keyboard_oids.map (fun koid => Ev.kbdLeave koid surface_oid)
      | none => []
    | none => []
  else []

/-- The keyboard enter messages the spec expects for a new focus target. -/
def expectedKeyboardEnters (p : Proxy) (new_sid : SurfaceId) : List Ev :=
  if new_sid ≠ invalidSid then
    match p.sid_to_surface_info_dict new_sid with
    | some surface_info =>
      match surface_info.surface_oid with
      | some surface_oid => p.keyboard_oids.map (fun koid => Ev.kbdEnter koid surface_oid)
      | none => []
    | none => []
  else []

/-- The per-pointer axis event sequence the spec describes, phrased over the
original (non-inverted) deltas: vertical axis with sign-inverted values,
then horizontal axis, each sending a discrete event iff its discrete delta
is non-zero followed by a continuous event or else a stop, closed by exactly
one frame-boundary marker. -/
def expectedAxisSeq (axis : Axis) (pointer_oid : ObjectId) : List Ev :=
  (if axis.discrete.2 ≠ 0 then
    [Ev.axisDiscrete pointer_oid VERTICAL_SCROLL (-axis.discrete.2)] else []) ++
  (if axis.continuous.2 ≠ 0 then
    [Ev.axisValue pointer_oid axis.time VERTICAL_SCROLL (-axis.continuous.2)]
   else [Ev.axisStop pointer_oid axis.time VERTICAL_SCROLL]) ++
  (if axis.discrete.1 ≠ 0 then
    [Ev.axisDiscrete pointer_oid HORIZONTAL_SCROLL axis.discrete.1] else []) ++
  (if axis.continuous.1 ≠ 0 then
    [Ev.axisValue pointer_oid axis.time HORIZONTAL_SCROLL axis.continuous.1]
   else [Ev.axisStop pointer_oid axis.time HORIZONTAL_SCROLL]) ++
  [Ev.ptrFrame pointer_oid]

/-- Recognizes the frame-done (`wl_callback::done`) wire message. -/
def isFrameDoneEv : Ev → Bool
  | Ev.callbackDone _ _ => true
  | _ => false

/-- Recognizes the buffer-release (`wl_buffer::release`) wire message. -/
def isBufferReleaseEv : Ev → Bool
  | Ev.bufferRelease _ => true
  | _ => false

/-- Recognizes the pointer frame-boundary (`wl_pointer::frame`) marker. -/
def isPtrFrameEv : Ev → Bool
  | Ev.ptrFrame _ => true
  | _ => false

/-- Recognizes the detach coordinator call. -/
def isDetachEv : Ev → Bool
  | Ev.detachSurface _ => true
  | _ => false

/-- Recognizes the screenshot-finished wire message and the mediator
requester-slot calls (the observable completion of the handshake). -/
def isScreenshotHandshakeEv : Ev → Bool
  | Ev.screenshooterDone _ => true
  | Ev.registerScreenshoter _ => true
  | _ => false

/-- The memory available as screenshot capture target after the reclaim step
of `take_screenshot`: the coordinator's reply for a shared-memory buffer's
pool, the previously held reclaimed memory otherwise. -/
def reclaimedMemory (p : Proxy) (destroyPoolResult : Nat → Option Memory)
    (buffer_oid : ObjectId) : Option Memory :=
  match p.buffer_oid_to_info_dict buffer_oid with
  | some (BufferInfo.Shm mpid _mvid) => destroyPoolResult mpid
  | _ => p.screenshot_memory

theorem range'_one_concat (n : Nat) : List.range' 1 (n + 1) = List.range' 1 n ++ [n + 1] := by
  simpa [Nat.add_comm] using List.range'_1_concat 1 n

/-- Inserting a key above every key of a sorted globals list appends. -/
theorem btreeInsert_append (k : Nat) (v : Global) :
    ∀ l : List (Nat × Global), (∀ x ∈ l, x.1 < k) → btreeInsert k v l = l ++ [(k, v)]
  | [], _ => rfl
  | (k', v') :: rest, h => by
    have hk' : k' < k := h (k', v') (by simp)
    simp only [btreeInsert, if_neg (by omega : ¬ k < k'), if_neg (by omega : ¬ k = k'),
      List.cons_append, List.cons.injEq, true_and]
    exact btreeInsert_append k v rest (fun x hx => h x (by simp [hx]))

/-- Folding `register_global` over a list of globals appends them to the
table with consecutive names, provided names do not wrap around `u32`. -/
theorem registerAll_globals (gs : List Global) (p : Proxy)
    (hinv : p.globals.map Prod.fst = List.range' 1 p.last_global_id)
    (hlt : p.last_global_id + gs.length < U32MOD) :
    (gs.foldl Proxy.register_global p).globals
      = p.globals ++
        ((List.range' (p.last_global_id + 1) gs.length).zip gs).map
          (fun ig => (ig.1, { ig.2 with name := ig.1 })) := by
  induction gs generalizing p with
  | nil => simp
  | cons g gs ih =>
    have hid : (p.last_global_id + 1) % U32MOD = p.last_global_id + 1 :=
      Nat.mod_eq_of_lt (by simp at hlt; omega)
    have hbound : ∀ x ∈ p.globals, x.1 < p.last_global_id + 1 := by
      intro x hx
      have : x.1 ∈ p.globals.map Prod.fst := List.mem_map_of_mem Prod.fst hx
      rw [hinv] at this
      have := List.mem_range'_1.mp this
      omega
    have hins : btreeInsert (p.last_global_id + 1) { g with name := p.last_global_id + 1 }
        p.globals = p.globals ++ [(p.last_global_id + 1, { g with name := p.last_global_id + 1 })] :=
      btreeInsert_append _ _ _ hbound
    have hreg : (Proxy.register_global p g).globals
        = p.globals ++ [(p.last_global_id + 1, { g with name := p.last_global_id + 1 })] := by
      simp only [Proxy.register_global, hid, hins]
    have hreg_id : (Proxy.register_global p g).last_global_id = p.last_global_id + 1 := by
      simp only [Proxy.register_global, hid]
    have hinv' : (Proxy.register_global p g).globals.map Prod.fst
        = List.range' 1 (Proxy.register_global p g).last_global_id := by
      rw [hreg, hreg_id, List.map_append, hinv]
      simpa using (range'_one_concat p.last_global_id).symm
    have hlt' : (Proxy.register_global p g).last_global_id + gs.length < U32MOD := by
      rw [hreg_id]; simp at hlt; omega
    have := ih (Proxy.register_global p g) hinv' hlt'
    rw [List.foldl_cons, this, hreg, hreg_id]
    rw [List.length_cons, List.range'_succ]
    simp [List.append_assoc]

/-- C2: for every sequence of `N` calls to `register_global` on a fresh
session (with `N` below the `u32` wrap-around), the globals table holds
exactly the registered globals with names `1..N` in ascending order equal to
registration order, and none of the other session operations modifies the
globals table. -/
theorem register_global_enumeration (cid : Nat) (gs : List Global)
    (h : gs.length < U32MOD) :
    ((gs.foldl Proxy.register_global (Proxy.new cid)).globals
        = ((List.range' 1 gs.length).zip gs).map (fun ig => (ig.1, { ig.2 with name := ig.1 })))
    ∧ ((gs.foldl Proxy.register_global (Proxy.new cid)).globals.map Prod.fst
        = List.range' 1 gs.length)
    ∧ (∀ (p : Proxy) b s x y, ((p.attach b s x y).1).globals = p.globals)
    ∧ (∀ (p : Proxy) so sh r, ((p.show so sh r).1).globals = p.globals)
    ∧ (∀ (p : Proxy) res mp bo f o w hh st,
        ((p.create_memory_view res mp bo f o w hh st).2).globals = p.globals)
    ∧ (∀ (p : Proxy) res bo a, ((p.create_egl_image res bo a).2).globals = p.globals)
    ∧ (∀ (p : Proxy) res bo a, ((p.import_dmabuf res bo a).2).globals = p.globals)
    ∧ (∀ (p : Proxy) dpr so oo bo, ((p.take_screenshot dpr so oo bo).1).globals = p.globals)
    ∧ (∀ (p : Proxy) sid ms, ((p.on_surface_frame sid ms).1).globals = p.globals)
    ∧ (∀ (p : Proxy) sid oid, ((p.relate_sid_with_surface sid oid).1).globals = p.globals)
    ∧ (∀ (p : Proxy) sid oid, ((p.relate_sid_with_buffer sid oid).1).globals = p.globals)
    ∧ (∀ (p : Proxy) sid oid, ((p.relate_sid_with_frame sid oid).1).globals = p.globals)
    ∧ (∀ (p : Proxy) sid oid,
        ((p.relate_sid_with_shell_surface sid oid).1).globals = p.globals) := by
  have hmain : (gs.foldl Proxy.register_global (Proxy.new cid)).globals
      = ((List.range' 1 gs.length).zip gs).map (fun ig => (ig.1, { ig.2 with name := ig.1 })) := by
    have := registerAll_globals gs (Proxy.new cid) (by simp [Proxy.new]) (by simp [Proxy.new, h])
    simpa [Proxy.new] using this
  refine ⟨hmain, ?_, ?_, ?_, ?_, ?_, ?_, ?_, ?_, ?_, ?_, ?_, ?_⟩
  · rw [hmain, List.map_map]
    have hlen : (List.range' 1 gs.length).length ≤ gs.length := by simp
    have := List.map_fst_zip (List.range' 1 gs.length) gs hlen
    simpa [Function.comp] using this
  · intro p b s x y
    unfold Proxy.attach Proxy.relate_sid_with_buffer relateBufferOid
    repeat' split
    all_goals rfl
  · intro p so sh r
    unfold Proxy.show Proxy.relate_sid_with_shell_surface relateShellSurfaceOid
    repeat' split
    all_goals rfl
  · intro p res mp bo f o w hh st
    unfold Proxy.create_memory_view
    repeat' split
    all_goals rfl
  · intro p res bo a
    unfold Proxy.create_egl_image
    repeat' split
    all_goals rfl
  · intro p res bo a
    unfold Proxy.import_dmabuf
    repeat' split
    all_goals rfl
  · intro p dpr so oo bo
    simp only [Proxy.take_screenshot]
    repeat' split
    all_goals rfl
  · intro p sid ms
    unfold Proxy.on_surface_frame
    repeat' split
    all_goals rfl
  · intro p sid oid
    unfold Proxy.relate_sid_with_surface relateSurfaceOid
    repeat' split
    all_goals rfl
  · intro p sid oid
    unfold Proxy.relate_sid_with_buffer relateBufferOid
    repeat' split
    all_goals rfl
  · intro p sid oid
    unfold Proxy.relate_sid_with_frame relateFrameOid
    repeat' split
    all_goals rfl
  · intro p sid oid
    unfold Proxy.relate_sid_with_shell_surface relateShellSurfaceOid
    repeat' split
    all_goals rfl

/-- Witness for C2 at three concrete registrations. -/
theorem register_global_enumeration_witness :
    sampleGlobals.length < U32MOD
    ∧ (sampleGlobals.foldl Proxy.register_global (Proxy.new 0)).globals
        = [(1, { name := 1, capability := 100 }), (2, { name := 2, capability := 200 }),
           (3, { name := 3, capability := 300 })] := by
  refine ⟨by decide, ?_⟩
  have := (register_global_enumeration 0 sampleGlobals (by decide)).1
  simpa [sampleGlobals] using this

/-- C3: attaching the null buffer object to a surface `S` that has a
previously attached non-null buffer `B` issues exactly one domain detach call
for `S` and zero backend attach calls, and leaves the BufferCorrelation
entry for `B` present and unchanged. -/
theorem attach_null_is_pure_detach (p : Proxy) (B : ObjectId) (S : SurfaceId) (x y : Int)
    (info : BufferInfo) (hB : p.buffer_oid_to_info_dict B = some info) :
    (p.attach 0 S x y).2.countP isDetachEv = 1
    ∧ (∀ e ∈ (p.attach 0 S x y).2, isDetachEv e = true → e = Ev.detachSurface S)
    ∧ (p.attach 0 S x y).2.countP isAttachEv = 0
    ∧ (p.attach 0 S x y).1.buffer_oid_to_info_dict B = some info := by
  refine ⟨?_, ?_, ?_, ?_⟩
  · simp [Proxy.attach, List.countP_cons, isDetachEv]
  · intro e he
    simp [Proxy.attach] at he
    rcases he with rfl | rfl
    · intro hfalse; simp [isDetachEv] at hfalse
    · intro _; rfl
  · simp [Proxy.attach, List.countP_cons, isAttachEv]
  · simp [Proxy.attach, hB]

/-- Witness for C3: detaching from surface `3` after buffer object `7` was
attached to it. -/
theorem attach_null_is_pure_detach_witness :
    sampleProxy.buffer_oid_to_info_dict 7 = some (BufferInfo.Shm 2 3)
    ∧ ((sampleProxy.attach 0 3 0 0).2.countP isDetachEv = 1
      ∧ (∀ e ∈ (sampleProxy.attach 0 3 0 0).2, isDetachEv e = true → e = Ev.detachSurface 3)
      ∧ (sampleProxy.attach 0 3 0 0).2.countP isAttachEv = 0
      ∧ (sampleProxy.attach 0 3 0 0).1.buffer_oid_to_info_dict 7
          = some (BufferInfo.Shm 2 3)) :=
  ⟨rfl, attach_null_is_pure_detach sampleProxy 7 3 0 0 (BufferInfo.Shm 2 3) rfl⟩

/-- C5: each buffer-creation operation records a BufferCorrelation entry of
the matching backend kind exactly when the domain returns an id; a domain
refusal returns `none` and leaves the session state untouched. -/
theorem buffer_creation_correlation (p : Proxy) (res : Option Nat) (mpid bo : Nat)
    (f o w hh st a : Nat) :
    (∀ id, res = some id →
      (p.create_memory_view res mpid bo f o w hh st).1 = some id
      ∧ (p.create_memory_view res mpid bo f o w hh st).2.buffer_oid_to_info_dict bo
          = some (BufferInfo.Shm mpid id)
      ∧ (∀ k, k ≠ bo → (p.create_memory_view res mpid bo f o w hh st).2.buffer_oid_to_info_dict k
          = p.buffer_oid_to_info_dict k)
      ∧ (p.create_egl_image res bo a).1 = some id
      ∧ (p.create_egl_image res bo a).2.buffer_oid_to_info_dict bo
          = some (BufferInfo.EglImage id)
      ∧ (∀ k, k ≠ bo → (p.create_egl_image res bo a).2.buffer_oid_to_info_dict k
          = p.buffer_oid_to_info_dict k)
      ∧ (p.import_dmabuf res bo a).1 = some id
      ∧ (p.import_dmabuf res bo a).2.buffer_oid_to_info_dict bo
          = some (BufferInfo.Dmabuf id)
      ∧ (∀ k, k ≠ bo → (p.import_dmabuf res bo a).2.buffer_oid_to_info_dict k
          = p.buffer_oid_to_info_dict k))
    ∧ (res = none →
      (p.create_memory_view res mpid bo f o w hh st).1 = none
      ∧ (p.create_memory_view res mpid bo f o w hh st).2 = p
      ∧ (p.create_egl_image res bo a).1 = none
      ∧ (p.create_egl_image res bo a).2 = p
      ∧ (p.import_dmabuf res bo a).1 = none
      ∧ (p.import_dmabuf res bo a).2 = p) := by
  constructor
  · rintro id rfl
    refine ⟨rfl, by simp [Proxy.create_memory_view], ?_, rfl,
      by simp [Proxy.create_egl_image], ?_, rfl, by simp [Proxy.import_dmabuf], ?_⟩
    · intro k hk; simp [Proxy.create_memory_view, hk]
    · intro k hk; simp [Proxy.create_egl_image, hk]
    · intro k hk; simp [Proxy.import_dmabuf, hk]
  · rintro rfl
    exact ⟨rfl, rfl, rfl, rfl, rfl, rfl⟩

/-- Witness for C5: a successful shared-memory view creation of id `9` on
the sample session records the correlation for buffer object `8`. -/
theorem buffer_creation_correlation_witness :
    (some 9 : Option Nat) = some 9
    ∧ (sampleProxy.create_memory_view (some 9) 2 8 0 0 0 0 0).1 = some 9
    ∧ (sampleProxy.create_memory_view (some 9) 2 8 0 0 0 0 0).2.buffer_oid_to_info_dict 8
        = some (BufferInfo.Shm 2 9) :=
  ⟨rfl,
    ((buffer_creation_correlation sampleProxy (some 9) 2 8 0 0 0 0 0 0).1 9 rfl).1,
    ((buffer_creation_correlation sampleProxy (some 9) 2 8 0 0 0 0 0 0).1 9 rfl).2.1⟩

/-- C6 counterexample: for the known surface object `5` (domain surface `3`)
and hotspot `(1, 2)`, `set_as_cursor` asks the domain to set offset `(1, 2)`
— the hotspot itself — and never the negated hotspot `(-1, -2)` the claim
requires. -/
theorem set_as_cursor_no_negation :
    sampleProxy.surface_oid_to_sid_dict 5 = some 3
    ∧ sampleProxy.set_as_cursor 5 1 2
        = [Ev.setSurfaceOffset 3 1 2, Ev.setSurfaceAsCursor 3]
    ∧ Ev.setSurfaceOffset 3 (-1) (-2) ∉ sampleProxy.set_as_cursor 5 1 2 := by
  refine ⟨rfl, by decide, by decide⟩

/-- C6 (amended): for every known surface object id and hotspot
`(hx, hy)`, `set_as_cursor` sets the surface's offset in the domain to the
hotspot itself — `(hx, hy)`, not its negation — and marks that surface as
this session's cursor surface. -/
theorem set_as_cursor_behavior (p : Proxy) (so : ObjectId) (hx hy : Int) (sid : SurfaceId)
    (h : p.surface_oid_to_sid_dict so = some sid) :
    p.set_as_cursor so hx hy
      = [Ev.setSurfaceOffset sid hx hy, Ev.setSurfaceAsCursor sid] := by
  simp [Proxy.set_as_cursor, h]

/-- Witness for C6 (amended) at surface object `5` and hotspot `(6, 7)`. -/
theorem set_as_cursor_behavior_witness :
    sampleProxy.surface_oid_to_sid_dict 5 = some 3
    ∧ sampleProxy.set_as_cursor 5 6 7
        = [Ev.setSurfaceOffset 3 6 7, Ev.setSurfaceAsCursor 3] :=
  ⟨rfl, set_as_cursor_behavior sampleProxy 5 6 7 3 rfl⟩

/-- C8: for a surface with a SurfaceCorrelation record, the frame-ready
callback sends one frame-done message iff a pending frame object is
recorded and one buffer-release message iff a pending buffer is recorded,
clears exactly those two sub-fields, and keeps the record (surface object
and shell descriptor unchanged); records of other surfaces are untouched. -/
theorem on_surface_frame_effects (p : Proxy) (sid : SurfaceId) (ms : Nat) (info : SurfaceInfo)
    (h : p.sid_to_surface_info_dict sid = some info) :
    ((p.on_surface_frame sid ms).2.countP isFrameDoneEv
        = if info.frame_oid.isSome then 1 else 0)
    ∧ ((p.on_surface_frame sid ms).2.countP isBufferReleaseEv
        = if info.buffer_oid.isSome then 1 else 0)
    ∧ (p.on_surface_frame sid ms).1.sid_to_surface_info_dict sid
        = some { info with frame_oid := none, buffer_oid := none }
    ∧ (SurfaceInfo.mk info.surface_oid none none info.shell_surface_oid).surface_oid
        = info.surface_oid
    ∧ (SurfaceInfo.mk info.surface_oid none none info.shell_surface_oid).shell_surface_oid
        = info.shell_surface_oid
    ∧ (∀ k, k ≠ sid → (p.on_surface_frame sid ms).1.sid_to_surface_info_dict k
        = p.sid_to_surface_info_dict k) := by
  refine ⟨?_, ?_, ?_, rfl, rfl, ?_⟩
  · cases hf : info.frame_oid <;> cases hb : info.buffer_oid <;>
      simp [Proxy.on_surface_frame, h, hf, hb, List.countP_cons, isFrameDoneEv]
  · cases hf : info.frame_oid <;> cases hb : info.buffer_oid <;>
      simp [Proxy.on_surface_frame, h, hf, hb, List.countP_cons, isBufferReleaseEv]
  · simp [Proxy.on_surface_frame, h]
  · intro k hk; simp [Proxy.on_surface_frame, h, hk]

/-- Witness for C8 on surface `3` of the sample session (pending frame `9`
and pending buffer `7`). -/
theorem on_surface_frame_effects_witness :
    sampleProxy.sid_to_surface_info_dict 3
      = some { surface_oid := some 5, buffer_oid := some 7, frame_oid := some 9,
               shell_surface_oid := some (ShellSurfaceOid.Shell 11) }
    ∧ (sampleProxy.on_surface_frame 3 42).2.countP isFrameDoneEv = 1
    ∧ (sampleProxy.on_surface_frame 3 42).2.countP isBufferReleaseEv = 1
    ∧ (sampleProxy.on_surface_frame 3 42).1.sid_to_surface_info_dict 3
        = some { surface_oid := some 5, buffer_oid := none, frame_oid := none,
                 shell_surface_oid := some (ShellSurfaceOid.Shell 11) } := by
  have h := on_surface_frame_effects sampleProxy 3 42
    { surface_oid := some 5, buffer_oid := some 7, frame_oid := some 9,
      shell_surface_oid := some (ShellSurfaceOid.Shell 11) } rfl
  exact ⟨rfl, by simpa using h.1, by simpa using h.2.1, h.2.2.1⟩

/-- C9: axis delivery inverts the sign of the vertical deltas only, emits
per pointer and per axis a discrete event iff the discrete delta is
non-zero followed by a continuous event or else a stop, and closes each
per-pointer sequence with exactly one frame-boundary marker; concretely, a
vertical discrete delta of `5` with zero continuous delta yields discrete
`-5`, a vertical stop, a horizontal stop and the frame marker. -/
theorem on_pointer_axis_delivery (p : Proxy) (axis : Axis) :
    p.on_pointer_axis axis = p.pointer_oids.flatMap (expectedAxisSeq axis)
    ∧ (∀ poid, (expectedAxisSeq axis poid).countP isPtrFrameEv = 1
        ∧ (expectedAxisSeq axis poid).getLast? = some (Ev.ptrFrame poid))
    ∧ onePointerProxy.on_pointer_axis { discrete := (0, 5), continuous := (0, 0), time := 8 }
        = [Ev.axisDiscrete 1 VERTICAL_SCROLL (-5), Ev.axisStop 1 8 VERTICAL_SCROLL,
           Ev.axisStop 1 8 HORIZONTAL_SCROLL, Ev.ptrFrame 1] := by
  refine ⟨?_, ?_, by decide⟩
  · unfold Proxy.on_pointer_axis expectedAxisSeq
    simp [neg_one_mul, neg_eq_zero]
  · intro poid
    constructor
    · unfold expectedAxisSeq
      repeat' split
      all_goals simp [List.countP_append, List.countP_cons, isPtrFrameEv]
    · unfold expectedAxisSeq
      repeat' split
      all_goals simp

/-- C7: whenever the screenshot-done callback fires with a requester object
recorded, the trace it emits is some copy-stage events (never a finished
message or a mediator-slot call) followed by the finished message to the
originally recorded requester object and then the unconditional clearing of
the mediator's requester slot — for every combination of copy outcomes. -/
theorem on_screenshot_done_completion (p : Proxy) (buf : Option Nat) (err : Option Nat)
    (soid : ObjectId) (h : p.screenshooter_oid = some soid) :
    ∃ logs : List Ev,
      p.on_screenshot_done buf err
        = logs ++ [Ev.screenshooterDone soid, Ev.registerScreenshoter none]
      ∧ ∀ e ∈ logs, isScreenshotHandshakeEv e = false := by
  unfold Proxy.on_screenshot_done
  rw [h]
  cases hm : p.screenshot_memory with
  | none => exact ⟨[], by simp, by simp⟩
  | some m =>
    cases buf with
    | none =>
      exact ⟨[Ev.takeScreenshotBuffer, Ev.logWarn warnScreenshotNoBuffer], by simp, by decide⟩
    | some s =>
      cases err with
      | none => exact ⟨[Ev.takeScreenshotBuffer], by simp, by decide⟩
      | some er =>
        exact ⟨[Ev.takeScreenshotBuffer, Ev.logWarn warnScreenshotAbsorb], by simp, by decide⟩

/-- Witness for C7 on the sample session (requester object `10`), with the
captured buffer missing. -/
theorem on_screenshot_done_completion_witness :
    sampleProxy.screenshooter_oid = some 10
    ∧ ∃ logs : List Ev,
        sampleProxy.on_screenshot_done none none
          = logs ++ [Ev.screenshooterDone 10, Ev.registerScreenshoter none]
        ∧ ∀ e ∈ logs, isScreenshotHandshakeEv e = false :=
  ⟨rfl, on_screenshot_done_completion sampleProxy none none 10 rfl⟩

/-- C10: once a SurfaceCorrelation sub-field (surface object, pending
buffer, pending frame, shell descriptor) holds a value, a further relate
call for the same surface leaves the whole table unchanged and logs a
warning; in particular `show` on a surface whose shell descriptor is
already bound keeps the old descriptor (and still asks the domain to show
the surface). -/
theorem relate_keeps_existing (d : SurfaceId → Option SurfaceInfo) (sid : SurfaceId)
    (info : SurfaceInfo) (h : d sid = some info) :
    (∀ v oid, info.surface_oid = some v →
      relateSurfaceOid d sid oid = (d, [Ev.logWarn warnAlreadyHave]))
    ∧ (∀ v oid, info.buffer_oid = some v →
      relateBufferOid d sid oid = (d, [Ev.logWarn warnAlreadyHave]))
    ∧ (∀ v oid, info.frame_oid = some v →
      relateFrameOid d sid oid = (d, [Ev.logWarn warnAlreadyHave]))
    ∧ (∀ v oid, info.shell_surface_oid = some v →
      relateShellSurfaceOid d sid oid = (d, [Ev.logWarn warnAlreadyHave]))
    ∧ (∀ (p : Proxy) so sid' info' sh' sh r,
        p.surface_oid_to_sid_dict so = some sid' →
        p.sid_to_surface_info_dict sid' = some info' →
        info'.shell_surface_oid = some sh' →
        (p.show so sh r).1.sid_to_surface_info_dict sid' = some info'
        ∧ (p.show so sh r).2 = [Ev.logWarn warnAlreadyHave, Ev.showSurface sid' r]) := by
  refine ⟨?_, ?_, ?_, ?_, ?_⟩
  · intro v oid hv; simp [relateSurfaceOid, h, hv]
  · intro v oid hv; simp [relateBufferOid, h, hv]
  · intro v oid hv; simp [relateFrameOid, h, hv]
  · intro v oid hv; simp [relateShellSurfaceOid, h, hv]
  · intro p so sid' info' sh' sh r h1 h2 h3
    constructor <;>
      simp [Proxy.show, Proxy.relate_sid_with_shell_surface, relateShellSurfaceOid, h1, h2, h3]

/-- Witness for C10 on surface `3` of the sample session, whose four
sub-fields are all set: re-relating each is refused with a warning, and
`show` keeps the legacy shell descriptor. -/
theorem relate_keeps_existing_witness :
    sampleProxy.sid_to_surface_info_dict 3
      = some { surface_oid := some 5, buffer_oid := some 7, frame_oid := some 9,
               shell_surface_oid := some (ShellSurfaceOid.Shell 11) }
    ∧ relateSurfaceOid sampleProxy.sid_to_surface_info_dict 3 99
        = (sampleProxy.sid_to_surface_info_dict, [Ev.logWarn warnAlreadyHave])
    ∧ relateBufferOid sampleProxy.sid_to_surface_info_dict 3 99
        = (sampleProxy.sid_to_surface_info_dict, [Ev.logWarn warnAlreadyHave])
    ∧ relateFrameOid sampleProxy.sid_to_surface_info_dict 3 99
        = (sampleProxy.sid_to_surface_info_dict, [Ev.logWarn warnAlreadyHave])
    ∧ relateShellSurfaceOid sampleProxy.sid_to_surface_info_dict 3
          (ShellSurfaceOid.ZxdgToplevelV6 12 13)
        = (sampleProxy.sid_to_surface_info_dict, [Ev.logWarn warnAlreadyHave])
    ∧ (sampleProxy.show 5 (ShellSurfaceOid.ZxdgToplevelV6 12 13) 0).1.sid_to_surface_info_dict 3
        = some { surface_oid := some 5, buffer_oid := some 7, frame_oid := some 9,
                 shell_surface_oid := some (ShellSurfaceOid.Shell 11) } := by
  have t := relate_keeps_existing sampleProxy.sid_to_surface_info_dict 3
    { surface_oid := some 5, buffer_oid := some 7, frame_oid := some 9,
      shell_surface_oid := some (ShellSurfaceOid.Shell 11) } rfl
  exact ⟨rfl, t.1 5 99 rfl, t.2.1 7 99 rfl, t.2.2.1 9 99 rfl,
    t.2.2.2.1 (ShellSurfaceOid.Shell 11) (ShellSurfaceOid.ZxdgToplevelV6 12 13) rfl,
    (t.2.2.2.2 sampleProxy 5 3
      { surface_oid := some 5, buffer_oid := some 7, frame_oid := some 9,
        shell_surface_oid := some (ShellSurfaceOid.Shell 11) }
      (ShellSurfaceOid.Shell 11) (ShellSurfaceOid.ZxdgToplevelV6 12 13) 0 rfl rfl rfl).1⟩

theorem flatMap_pure_eq_map {α β : Type} (f : α → β) (l : List α) :
    l.flatMap (fun x => [f x]) = l.map f := by
  induction l with
  | nil => rfl
  | cons x xs ih => simp [List.flatMap_cons, ih]

theorem filter_flatMap_ev {α : Type} (l : List α) (f : α → List Ev) (q : Ev → Bool) :
    (l.flatMap f).filter q = l.flatMap (fun x => (f x).filter q) := by
  induction l with
  | nil => rfl
  | cons x xs ih => simp [List.flatMap_cons, List.filter_append, ih]

/-- Reconfiguration messages are never focus-notification messages. -/
theorem reconf_no_focus (p : Proxy) (kfsid sid : SurfaceId) (size : Nat × Nat)
    (fl : SurfaceState) :
    (p.on_surface_reconfigured kfsid sid size fl).filter isFocusMsg = [] := by
  unfold Proxy.on_surface_reconfigured
  repeat' split
  all_goals simp [isFocusMsg]

/-- Filtering the focus messages out of a keyboard leave/enter fan-out block
keeps exactly one focus message per bound keyboard object. -/
theorem filter_kbd_flatMap (p : Proxy) (getSurface : SurfaceId → Option WindowInfo)
    (kfsid s : SurfaceId) (koids : List ObjectId) (mk : ObjectId → Ev)
    (hmk : ∀ k, isFocusMsg (mk k) = true) :
    (koids.flatMap (fun koid =>
        mk koid ::
        (match getSurface s with
         | some window_info =>
           p.on_surface_reconfigured kfsid s window_info.desired_size window_info.state_flags
         | none => []))).filter isFocusMsg
      = koids.map mk := by
  rw [filter_flatMap_ev]
  have hfun : ∀ koid : ObjectId,
      ((mk koid ::
        (match getSurface s with
         | some window_info =>
           p.on_surface_reconfigured kfsid s window_info.desired_size window_info.state_flags
         | none => [])).filter isFocusMsg) = [mk koid] := by
    intro koid
    cases hg : getSurface s <;> simp [List.filter_cons, hmk, reconf_no_focus]
  simp only [hfun]
  exact flatMap_pure_eq_map mk koids

/-- C4: for every focus-change callback, the focus-notification messages
emitted are exactly the leave messages for the old target (one per bound
pointer/keyboard object when it is valid and known, none otherwise)
strictly before the enter messages for the new target — for the pointer
callback the whole trace is exactly that, and for the keyboard callback the
interleaved reconfiguration resends contain no focus message. -/
theorem focus_change_symmetric (p : Proxy) (old_sid new_sid : SurfaceId) (pos : Int × Int)
    (getSurface : SurfaceId → Option WindowInfo) (kfsid : SurfaceId) :
    p.on_pointer_focus_changed old_sid new_sid pos
      = expectedPointerLeaves p old_sid ++ expectedPointerEnters p new_sid pos
    ∧ (p.on_keyboard_focus_changed getSurface kfsid old_sid new_sid).filter isFocusMsg
      = expectedKeyboardLeaves p old_sid ++ expectedKeyboardEnters p new_sid := by
  constructor
  · rfl
  · unfold Proxy.on_keyboard_focus_changed expectedKeyboardLeaves expectedKeyboardEnters
    rw [List.filter_append]
    congr 1
    · by_cases hv : old_sid ≠ invalidSid
      · simp only [if_pos hv]
        cases h1 : p.sid_to_surface_info_dict old_sid with
        | none => rfl
        | some surface_info =>
          dsimp only
          cases h2 : surface_info.surface_oid with
          | none => rfl
          | some soid =>
            exact filter_kbd_flatMap p getSurface kfsid old_sid p.keyboard_oids
              (fun koid => Ev.kbdLeave koid soid) (fun _ => rfl)
      · simp only [if_neg hv]
        rfl
    · by_cases hv : new_sid ≠ invalidSid
      · simp only [if_pos hv]
        cases h1 : p.sid_to_surface_info_dict new_sid with
        | none => rfl
        | some surface_info =>
          dsimp only
          cases h2 : surface_info.surface_oid with
          | none => rfl
          | some soid =>
            exact filter_kbd_flatMap p getSurface kfsid new_sid p.keyboard_oids
              (fun koid => Ev.kbdEnter koid soid) (fun _ => rfl)
      · simp only [if_neg hv]
        rfl

/-- C1 counterexample: on the sample session the request from object `10` is
still outstanding (requester object recorded, capture not fulfilled), yet a
second `take_screenshot` naming the known output `4` and the reclaimable
buffer `7` is not rejected: the recorded requester object changes to the new
object `11`, no local failure is reported, and the session registers itself
with the mediator as screenshot requester a second time. -/
theorem take_screenshot_second_not_rejected :
    sampleProxy.screenshooter_oid = some 10
    ∧ (sampleProxy.take_screenshot (fun _ => some 1) 11 4 7).1.screenshooter_oid = some 11
    ∧ countFailures (sampleProxy.take_screenshot (fun _ => some 1) 11 4 7).2 = 0
    ∧ Ev.registerScreenshoter (some 1)
        ∈ (sampleProxy.take_screenshot (fun _ => some 1) 11 4 7).2 :=
  ⟨rfl, rfl, by decide, by decide⟩

/-- C1 (amended): `take_screenshot` does not check whether a request is
outstanding.  Whenever the reclaim step yields capture memory and the named
output is known it proceeds — overwriting the recorded requester object,
reporting no failure and registering this session with the mediator (again).
It is rejected locally — requester object unchanged, exactly one local
failure report, no mediator registration — exactly when no capture memory
is available after the reclaim step or the named output is unknown. -/
theorem take_screenshot_behavior (p : Proxy) (dpr : Nat → Option Memory)
    (soid ooid boid : ObjectId) :
    (∀ m oid', reclaimedMemory p dpr boid = some m → p.output_oid_to_id ooid = some oid' →
      (p.take_screenshot dpr soid ooid boid).1.screenshooter_oid = some soid
      ∧ countFailures (p.take_screenshot dpr soid ooid boid).2 = 0
      ∧ Ev.registerScreenshoter (some p.client_id) ∈ (p.take_screenshot dpr soid ooid boid).2)
    ∧ (reclaimedMemory p dpr boid = none →
      (p.take_screenshot dpr soid ooid boid).1.screenshooter_oid = p.screenshooter_oid
      ∧ countFailures (p.take_screenshot dpr soid ooid boid).2 = 1
      ∧ ∀ c, Ev.registerScreenshoter c ∉ (p.take_screenshot dpr soid ooid boid).2)
    ∧ (∀ m, reclaimedMemory p dpr boid = some m → p.output_oid_to_id ooid = none →
      (p.take_screenshot dpr soid ooid boid).1.screenshooter_oid = p.screenshooter_oid
      ∧ countFailures (p.take_screenshot dpr soid ooid boid).2 = 1
      ∧ ∀ c, Ev.registerScreenshoter c ∉ (p.take_screenshot dpr soid ooid boid).2) := by
  refine ⟨?_, ?_, ?_⟩
  · rintro m oid' hm ho
    unfold Proxy.take_screenshot
    unfold reclaimedMemory at hm
    cases hb : p.buffer_oid_to_info_dict boid with
    | none =>
      rw [hb] at hm; dsimp only at hm
      simp [hb, hm, ho, countFailures, isFailureEv]
    | some info =>
      cases info with
      | Shm mpid mvid =>
        rw [hb] at hm; dsimp only at hm
        simp [hb, hm, ho, countFailures, isFailureEv]
      | EglImage eiid =>
        rw [hb] at hm; dsimp only at hm
        simp [hb, hm, ho, countFailures, isFailureEv]
      | Dmabuf dbid =>
        rw [hb] at hm; dsimp only at hm
        simp [hb, hm, ho, countFailures, isFailureEv]
  · intro hm
    unfold Proxy.take_screenshot
    unfold reclaimedMemory at hm
    cases hb : p.buffer_oid_to_info_dict boid with
    | none =>
      rw [hb] at hm; dsimp only at hm
      simp [hb, hm, countFailures, isFailureEv]
    | some info =>
      cases info with
      | Shm mpid mvid =>
        rw [hb] at hm; dsimp only at hm
        simp [hb, hm, countFailures, isFailureEv]
      | EglImage eiid =>
        rw [hb] at hm; dsimp only at hm
        simp [hb, hm, countFailures, isFailureEv]
      | Dmabuf dbid =>
        rw [hb] at hm; dsimp only at hm
        simp [hb, hm, countFailures, isFailureEv]
  · rintro m hm ho
    unfold Proxy.take_screenshot
    unfold reclaimedMemory at hm
    cases hb : p.buffer_oid_to_info_dict boid with
    | none =>
      rw [hb] at hm; dsimp only at hm
      simp [hb, hm, ho, countFailures, isFailureEv]
    | some info =>
      cases info with
      | Shm mpid mvid =>
        rw [hb] at hm; dsimp only at hm
        simp [hb, hm, ho, countFailures, isFailureEv]
      | EglImage eiid =>
        rw [hb] at hm; dsimp only at hm
        simp [hb, hm, ho, countFailures, isFailureEv]
      | Dmabuf dbid =>
        rw [hb] at hm; dsimp only at hm
        simp [hb, hm, ho, countFailures, isFailureEv]

/-- Witness for C1 (amended): the rejection branch on the sample session,
re-naming the screenshot buffer `7` whose pool reclaim now yields nothing. -/
theorem take_screenshot_behavior_witness :
    reclaimedMemory sampleProxy (fun _ => none) 7 = none
    ∧ ((sampleProxy.take_screenshot (fun _ => none) 11 4 7).1.screenshooter_oid
        = sampleProxy.screenshooter_oid
      ∧ countFailures (sampleProxy.take_screenshot (fun _ => none) 11 4 7).2 = 1
      ∧ ∀ c, Ev.registerScreenshoter c
          ∉ (sampleProxy.take_screenshot (fun _ => none) 11 4 7).2) :=
  ⟨rfl, (take_screenshot_behavior sampleProxy (fun _ => none) 11 4 7).2.1 rfl⟩

end Perceptia
